import Mathlib

/-!
ComUtils.h: status checkers and the COM / OLE runtime guards

A shallow embedding of `src/ComUtils.h` (namespace `Markus_M_Egger::ComUtils`).

* An `HRESULT` is a 32-bit signed integer; no arithmetic is performed on it, only
  equality tests, so it is embedded as an `Int`.
* The host calls the header makes (`CoInitializeEx`, `CoUninitialize`,
  `OleInitialize`, `OleUninitialize`, the `TRACE` sink and the `_ASSERTE` report)
  are recorded, in program order, in an event log that is threaded through
  every operation.
* A C++ `throw` is the `Except.error` branch of a `Run`.
-/

namespace Markus_M_Egger
namespace ComUtils

/-! ## Host constants and status codes -/

/-- A COM status code (`HRESULT`, a 32-bit signed integer in the host headers). -/
abbrev HRESULT := Int

/-- Range of the values a 32-bit signed `HRESULT` can take. -/
def HRESULT.inRange (hr : HRESULT) : Prop := -2147483648 ≤ hr ∧ hr ≤ 2147483647

instance (hr : HRESULT) : Decidable (HRESULT.inRange hr) := by
  unfold HRESULT.inRange; infer_instance

/-- Modelled from the spec: the host header constant `S_OK`, the canonical success
code (OK). The host headers, which lie outside the repository, define it as 0. -/
def S_OK : HRESULT := 0

/-- Modelled from the spec: the host header constant `S_FALSE`, the alternate
success code (OK_ALT). The host headers define it as 1. -/
def S_FALSE : HRESULT := 1

/-- Modelled from the spec: the host header constant `E_FAIL`, a generic failure
code. The host headers define it as 0x80004005, read as a signed 32-bit integer. -/
def E_FAIL : HRESULT := -2147467259

/-- Modelled from the spec: the host header constant `COINIT_MULTITHREADED`
(native mode constant of the multi-threaded apartment, 0x0). -/
def COINIT_MULTITHREADED : Nat := 0

/-- Modelled from the spec: the host header constant `COINIT_APARTMENTTHREADED`
(native mode constant of the single-threaded apartment, 0x2). -/
def COINIT_APARTMENTTHREADED : Nat := 2

/-- The `enum class Apartment` of the header. -/
inductive Apartment where
  | MultiThreaded
  | SingleThreaded
  deriving DecidableEq, Repr

/-- The enumerator values: `static_cast<DWORD>(apartment)`. -/
def Apartment.toDWORD : Apartment → Nat
  | .MultiThreaded => COINIT_MULTITHREADED
  | .SingleThreaded => COINIT_APARTMENTTHREADED

/-! ## Observable events and runs -/

/-- What the header does to the host, in program order. -/
inductive Event where
  /-- A call `CoInitializeEx(nullptr, mode)`. -/
  | comInit (mode : Nat)
  /-- A call of the COM teardown function. -/
  | comTeardown
  /-- A call `OleInitialize(nullptr)`. -/
  | oleInit
  /-- A call of the OLE teardown function. -/
  | oleTeardown
  /-- A message handed to the `TRACE` sink. -/
  | trace (msg : String)
  /-- A failed `_ASSERTE` reported by a debug build. -/
  | assertReport
  deriving DecidableEq, Repr

/-- The host environment of one thread: what its initializers answer, and whether
the header was compiled as a debug build (`_ASSERTE` active). -/
structure Host where
  /-- Status code `CoInitializeEx(nullptr, mode)` returns. -/
  coInitResult : Nat → HRESULT
  /-- Status code `OleInitialize(nullptr)` returns. -/
  oleInitResult : HRESULT
  /-- Whether `_ASSERTE` is compiled in. -/
  debugBuild : Bool

/-- `struct ComException`: carries the failing status code. -/
structure ComException where
  result : HRESULT
  deriving DecidableEq, Repr

/-- `HRESULT hr(void) const`. -/
def ComException.hr (e : ComException) : HRESULT := e.result

/-- The outcome of running a piece of code from some event log: the log afterwards
and either the returned value or the thrown exception. -/
structure Run (ε α : Type) where
  events : List Event
  result : Except ε α

/-- Whether the run returned normally. -/
def Run.completed {ε α : Type} (r : Run ε α) : Bool :=
  match r.result with
  | .ok _ => true
  | .error _ => false

/-! ## Host calls -/

/-- `TRACE(msg)`: the header defines `TRACE` as `OutputDebugString` when the host
has not defined it; the message reaches the trace sink. -/
def TRACE (msg : String) (w : List Event) : List Event :=
  w ++ [Event.trace msg]

/-- Modelled from the spec: the host macro `_ASSERTE(cond)`. It is diagnostic only:
a debug build reports a condition that does not hold and execution goes on; a
release build compiles it out. -/
def _ASSERTE (debugBuild cond : Bool) (w : List Event) : List Event :=
  if debugBuild && !cond then w ++ [Event.assertReport] else w

/-- `CoInitializeEx(nullptr, mode)`: records the call, answers the host's code. -/
def CoInitializeEx (host : Host) (mode : Nat) (w : List Event) : HRESULT × List Event :=
  (host.coInitResult mode, w ++ [Event.comInit mode])

/-- The COM teardown call. -/
def CoUninitialize (w : List Event) : List Event :=
  w ++ [Event.comTeardown]

/-- `OleInitialize(nullptr)`: records the call, answers the host's code. -/
def OleInitialize (host : Host) (w : List Event) : HRESULT × List Event :=
  (host.oleInitResult, w ++ [Event.oleInit])

/-- The OLE teardown call. -/
def OleUninitialize (w : List Event) : List Event :=
  w ++ [Event.oleTeardown]

/-! ## The status checkers -/

/-- The condition `CheckHR` hands to `_ASSERTE`: `S_OK == hr`. -/
def CheckHR.asserted (hr : HRESULT) : Bool := decide (S_OK = hr)

/-- The condition `CheckHR_OKorFALSE` hands to `_ASSERTE`:
`S_OK == hr || S_FALSE == hr`. -/
def CheckHR_OKorFALSE.asserted (hr : HRESULT) : Bool :=
  decide (S_OK = hr) || decide (S_FALSE = hr)

/-- `inline bool CheckHR(const HRESULT& hr)`. -/
def CheckHR (debugBuild : Bool) (hr : HRESULT) (w : List Event) : Run ComException Bool :=
  let w1 := _ASSERTE debugBuild (CheckHR.asserted hr) w
  if S_OK ≠ hr then
    ⟨w1, .error ⟨hr⟩⟩
  else
    ⟨w1, .ok true⟩

/-- `inline bool CheckHR_OKorFALSE(const HRESULT& hr)`. -/
def CheckHR_OKorFALSE (debugBuild : Bool) (hr : HRESULT) (w : List Event) :
    Run ComException Bool :=
  let w1 := _ASSERTE debugBuild (CheckHR_OKorFALSE.asserted hr) w
  if ¬ (S_OK = hr ∨ S_FALSE = hr) then
    ⟨w1, .error ⟨hr⟩⟩
  else
    ⟨w1, .ok true⟩

/-! ## The runtime guards -/

/-- `struct ComRuntime`: its only field is `HRESULT initResult{ E_FAIL }`. -/
structure ComRuntime where
  initResult : HRESULT := E_FAIL
  deriving DecidableEq, Repr

/-- `explicit ComRuntime(Apartment apartment)`. When `CheckHR` throws, the exception
leaves the constructor and no object comes into being. -/
def ComRuntime.ctor (host : Host) (apartment : Apartment) (w : List Event) :
    Run ComException ComRuntime :=
  let this : ComRuntime := {}
  let call := CoInitializeEx host apartment.toDWORD w
  let this : ComRuntime := { this with initResult := call.1 }
  match CheckHR host.debugBuild this.initResult call.2 with
  | ⟨w1, .error e⟩ => ⟨w1, .error e⟩
  | ⟨w1, .ok _⟩ => ⟨TRACE "COM runtime initialized." w1, .ok this⟩

/-- `~ComRuntime(void)`. -/
def ComRuntime.dtor (this : ComRuntime) (w : List Event) : List Event :=
  if S_OK = this.initResult then
    TRACE "COM runtime uninitialized." <| CoUninitialize w
  else
    w

/-- `struct OleRuntime`: its only field is `HRESULT initResult{ E_FAIL }`. -/
structure OleRuntime where
  initResult : HRESULT := E_FAIL
  deriving DecidableEq, Repr

/-- `explicit OleRuntime(void)`. The source checks the initializer's answer with
`CheckHR` (line 108), not with `CheckHR_OKorFALSE`. -/
def OleRuntime.ctor (host : Host) (w : List Event) : Run ComException OleRuntime :=
  let this : OleRuntime := {}
  let call := OleInitialize host w
  let this : OleRuntime := { this with initResult := call.1 }
  match CheckHR host.debugBuild this.initResult call.2 with
  | ⟨w1, .error e⟩ => ⟨w1, .error e⟩
  | ⟨w1, .ok _⟩ => ⟨TRACE "OLE COM runtime initialized." w1, .ok this⟩

/-- `~OleRuntime(void)`. -/
def OleRuntime.dtor (this : OleRuntime) (w : List Event) : List Event :=
  if S_OK = this.initResult ∨ S_FALSE = this.initResult then
    TRACE "OLE COM runtime uninitialized." <| OleUninitialize w
  else
    w

/-! ## Guarded scopes -/

/-- The body of a guarded scope, seen from outside: the events it causes and the way
it is left, by returning a value or by throwing. The guards have no public member,
so the body cannot touch the guard. -/
structure Block (ε β : Type) where
  emits : List Event
  exit : Except ε β

/-- The empty body. -/
def Block.skip {ε : Type} : Block ε Unit := ⟨[], .ok ()⟩

/-- What can leave a guarded scope: the exception of the guard's constructor, or
one thrown by the body. -/
inductive Raised (ε : Type) where
  | ctor (e : ComException)
  | body (e : ε)
  deriving DecidableEq, Repr

/-- The scope `{ ComRuntime guard{ apartment }; body }`: when the constructor throws,
neither the body nor the destructor runs; otherwise the destructor runs when the
body is left, whichever way it is left. -/
def ComRuntime.scope {ε β : Type} (host : Host) (apartment : Apartment)
    (block : Block ε β) (w : List Event) : Run (Raised ε) β :=
  match ComRuntime.ctor host apartment w with
  | ⟨w1, .error e⟩ => ⟨w1, .error (Raised.ctor e)⟩
  | ⟨w1, .ok guard⟩ => ⟨guard.dtor (w1 ++ block.emits), block.exit.mapError Raised.body⟩

/-- The scope `{ OleRuntime guard; body }`, as for `ComRuntime.scope`. -/
def OleRuntime.scope {ε β : Type} (host : Host) (block : Block ε β) (w : List Event) :
    Run (Raised ε) β :=
  match OleRuntime.ctor host w with
  | ⟨w1, .error e⟩ => ⟨w1, .error (Raised.ctor e)⟩
  | ⟨w1, .ok guard⟩ => ⟨guard.dtor (w1 ++ block.emits), block.exit.mapError Raised.body⟩

/-- The messages the trace sink received, in order. -/
def traces (w : List Event) : List String :=
  w.filterMap fun ev =>
    match ev with
    | .trace msg => some msg
    | _ => none

/-- The events a debug build adds when a check fails. -/
def assertLog (debugBuild : Bool) : List Event :=
  if debugBuild then [Event.assertReport] else []

/-- A host whose initializers both answer `c`. -/
def Host.answering (c : HRESULT) (debugBuild : Bool) : Host :=
  ⟨fun _ => c, c, debugBuild⟩

/-! ## Facts about the checkers -/

/-- The three named status codes are 32-bit values and pairwise distinct. -/
theorem named_codes_inRange :
    HRESULT.inRange S_OK ∧ HRESULT.inRange S_FALSE ∧ HRESULT.inRange E_FAIL ∧
    S_OK ≠ S_FALSE ∧ E_FAIL ≠ S_OK ∧ E_FAIL ≠ S_FALSE := by
  decide

theorem CheckHR_ok (debugBuild : Bool) (w : List Event) :
    CheckHR debugBuild S_OK w = ⟨w, .ok true⟩ := by
  simp [CheckHR, _ASSERTE, CheckHR.asserted]

theorem CheckHR_error (debugBuild : Bool) (c : HRESULT) (w : List Event) (h : c ≠ S_OK) :
    CheckHR debugBuild c w = ⟨w ++ assertLog debugBuild, .error ⟨c⟩⟩ := by
  have h1 : ¬ S_OK = c := fun e => h e.symm
  cases debugBuild <;> simp [CheckHR, _ASSERTE, CheckHR.asserted, assertLog, h1]

theorem CheckHR_OKorFALSE_ok (debugBuild : Bool) (c : HRESULT) (w : List Event)
    (h : c = S_OK ∨ c = S_FALSE) :
    CheckHR_OKorFALSE debugBuild c w = ⟨w, .ok true⟩ := by
  rcases h with h | h <;> subst h <;>
    simp [CheckHR_OKorFALSE, _ASSERTE, CheckHR_OKorFALSE.asserted, S_OK, S_FALSE]

theorem CheckHR_OKorFALSE_error (debugBuild : Bool) (c : HRESULT) (w : List Event)
    (h1 : c ≠ S_OK) (h2 : c ≠ S_FALSE) :
    CheckHR_OKorFALSE debugBuild c w = ⟨w ++ assertLog debugBuild, .error ⟨c⟩⟩ := by
  have h3 : ¬ S_OK = c := fun e => h1 e.symm
  have h4 : ¬ S_FALSE = c := fun e => h2 e.symm
  cases debugBuild <;>
    simp [CheckHR_OKorFALSE, _ASSERTE, CheckHR_OKorFALSE.asserted, assertLog, h3, h4]

/-- C1. For every status code `c` (every `Int`, so every 32-bit one), in a debug or a
release build and from any event log: `CheckHR c` returns `true` exactly when
`c = S_OK`; for every other `c` it does not return but throws a `ComException`
whose `hr()` is `c`; and it never returns `false`. -/
theorem CheckHR_contract (debugBuild : Bool) (c : HRESULT) (w : List Event) :
    ((CheckHR debugBuild c w).result = .ok true ↔ c = S_OK) ∧
    (c ≠ S_OK → ∃ e : ComException,
        (CheckHR debugBuild c w).result = .error e ∧ e.hr = c) ∧
    (CheckHR debugBuild c w).result ≠ .ok false := by
  by_cases h : c = S_OK
  · subst h
    simp [CheckHR_ok]
  · simp [CheckHR_error _ _ _ h, h, ComException.hr]

/-- C2. For every status code `c`, in a debug or a release build and from any event
log: `CheckHR_OKorFALSE c` returns `true` exactly when `c = S_OK` or `c = S_FALSE`;
for every other `c` it throws a `ComException` whose `hr()` is `c`; it does not
throw on `S_FALSE` and it never returns `false`. -/
theorem CheckHR_OKorFALSE_contract (debugBuild : Bool) (c : HRESULT) (w : List Event) :
    ((CheckHR_OKorFALSE debugBuild c w).result = .ok true ↔ (c = S_OK ∨ c = S_FALSE)) ∧
    (¬ (c = S_OK ∨ c = S_FALSE) → ∃ e : ComException,
        (CheckHR_OKorFALSE debugBuild c w).result = .error e ∧ e.hr = c) ∧
    (CheckHR_OKorFALSE debugBuild S_FALSE w).result = .ok true ∧
    (CheckHR_OKorFALSE debugBuild c w).result ≠ .ok false := by
  have hF := CheckHR_OKorFALSE_ok debugBuild S_FALSE w (Or.inr rfl)
  by_cases h : c = S_OK ∨ c = S_FALSE
  · simp [CheckHR_OKorFALSE_ok _ _ _ h, h, hF]
  · have h' := h
    push_neg at h'
    simp [CheckHR_OKorFALSE_error _ _ _ h'.1 h'.2, h, hF, ComException.hr]

/-! ## Facts about the constructors, destructors and scopes -/

theorem ComRuntime_ctor_ok (host : Host) (a : Apartment) (w : List Event)
    (h : host.coInitResult a.toDWORD = S_OK) :
    ComRuntime.ctor host a w =
      ⟨w ++ [Event.comInit a.toDWORD, Event.trace "COM runtime initialized."],
        .ok ⟨S_OK⟩⟩ := by
  simp [ComRuntime.ctor, CoInitializeEx, h, CheckHR_ok, TRACE]

theorem ComRuntime_ctor_error (host : Host) (a : Apartment) (w : List Event)
    (h : host.coInitResult a.toDWORD ≠ S_OK) :
    ComRuntime.ctor host a w =
      ⟨w ++ [Event.comInit a.toDWORD] ++ assertLog host.debugBuild,
        .error ⟨host.coInitResult a.toDWORD⟩⟩ := by
  simp [ComRuntime.ctor, CoInitializeEx, CheckHR_error _ _ _ h]

theorem OleRuntime_ctor_ok (host : Host) (w : List Event)
    (h : host.oleInitResult = S_OK) :
    OleRuntime.ctor host w =
      ⟨w ++ [Event.oleInit, Event.trace "OLE COM runtime initialized."],
        .ok ⟨S_OK⟩⟩ := by
  simp [OleRuntime.ctor, OleInitialize, h, CheckHR_ok, TRACE]

theorem OleRuntime_ctor_error (host : Host) (w : List Event)
    (h : host.oleInitResult ≠ S_OK) :
    OleRuntime.ctor host w =
      ⟨w ++ [Event.oleInit] ++ assertLog host.debugBuild,
        .error ⟨host.oleInitResult⟩⟩ := by
  simp [OleRuntime.ctor, OleInitialize, CheckHR_error _ _ _ h]

theorem ComRuntime_dtor_eq (c : HRESULT) (w : List Event) :
    ComRuntime.dtor ⟨c⟩ w =
      w ++ (if c = S_OK then
              [Event.comTeardown, Event.trace "COM runtime uninitialized."]
            else []) := by
  by_cases h : c = S_OK
  · subst h
    simp [ComRuntime.dtor, TRACE, CoUninitialize]
  · have h1 : ¬ S_OK = c := fun e => h e.symm
    simp [ComRuntime.dtor, h, h1]

theorem OleRuntime_dtor_eq (c : HRESULT) (w : List Event) :
    OleRuntime.dtor ⟨c⟩ w =
      w ++ (if c = S_OK ∨ c = S_FALSE then
              [Event.oleTeardown, Event.trace "OLE COM runtime uninitialized."]
            else []) := by
  by_cases h : c = S_OK ∨ c = S_FALSE
  · have h1 : S_OK = c ∨ S_FALSE = c := h.imp Eq.symm Eq.symm
    simp [OleRuntime.dtor, TRACE, OleUninitialize, h, h1]
  · have h1 : ¬ (S_OK = c ∨ S_FALSE = c) := fun e => h (e.imp Eq.symm Eq.symm)
    simp [OleRuntime.dtor, h, h1]

theorem ComRuntime_scope_ok {ε β : Type} (host : Host) (a : Apartment)
    (block : Block ε β) (w : List Event) (h : host.coInitResult a.toDWORD = S_OK) :
    ComRuntime.scope host a block w =
      ⟨w ++ [Event.comInit a.toDWORD, Event.trace "COM runtime initialized."]
          ++ block.emits
          ++ [Event.comTeardown, Event.trace "COM runtime uninitialized."],
        block.exit.mapError Raised.body⟩ := by
  simp [ComRuntime.scope, ComRuntime_ctor_ok host a w h, ComRuntime_dtor_eq]

theorem ComRuntime_scope_error {ε β : Type} (host : Host) (a : Apartment)
    (block : Block ε β) (w : List Event) (h : host.coInitResult a.toDWORD ≠ S_OK) :
    ComRuntime.scope host a block w =
      ⟨w ++ [Event.comInit a.toDWORD] ++ assertLog host.debugBuild,
        .error (Raised.ctor ⟨host.coInitResult a.toDWORD⟩)⟩ := by
  simp [ComRuntime.scope, ComRuntime_ctor_error host a w h]

theorem OleRuntime_scope_ok {ε β : Type} (host : Host)
    (block : Block ε β) (w : List Event) (h : host.oleInitResult = S_OK) :
    OleRuntime.scope host block w =
      ⟨w ++ [Event.oleInit, Event.trace "OLE COM runtime initialized."]
          ++ block.emits
          ++ [Event.oleTeardown, Event.trace "OLE COM runtime uninitialized."],
        block.exit.mapError Raised.body⟩ := by
  simp [OleRuntime.scope, OleRuntime_ctor_ok host w h, OleRuntime_dtor_eq]

theorem OleRuntime_scope_error {ε β : Type} (host : Host)
    (block : Block ε β) (w : List Event) (h : host.oleInitResult ≠ S_OK) :
    OleRuntime.scope host block w =
      ⟨w ++ [Event.oleInit] ++ assertLog host.debugBuild,
        .error (Raised.ctor ⟨host.oleInitResult⟩)⟩ := by
  simp [OleRuntime.scope, OleRuntime_ctor_error host w h]

theorem count_assertLog (debugBuild : Bool) (ev : Event) (h : ev ≠ Event.assertReport) :
    (assertLog debugBuild).count ev = 0 := by
  cases debugBuild
  · simp [assertLog]
  · simp only [assertLog, if_true]
    exact List.count_eq_zero.mpr (by simpa using h)

theorem traces_append (u v : List Event) : traces (u ++ v) = traces u ++ traces v := by
  simp [traces, List.filterMap_append]

theorem traces_assertLog (debugBuild : Bool) : traces (assertLog debugBuild) = [] := by
  cases debugBuild <;> simp [traces, assertLog]

/-! ## The guards' contracts -/

/-- C4. For every apartment kind and every status code `F ≠ S_OK` answered by
`CoInitializeEx`: the `ComRuntime` constructor throws a `ComException` whose `hr()`
is `F`; the exception leaves the guarded scope; nothing runs after the constructor
(neither the body nor the destructor, so no guard is ever live); and the COM
teardown call is never made. -/
theorem ComRuntime_failed_init_raises {ε β : Type} (host : Host) (a : Apartment)
    (F : HRESULT) (block : Block ε β) (w : List Event)
    (hF : host.coInitResult a.toDWORD = F) (hne : F ≠ S_OK) :
    (∃ e : ComException, (ComRuntime.ctor host a w).result = .error e ∧ e.hr = F) ∧
    (ComRuntime.ctor host a w).completed = false ∧
    (ComRuntime.scope host a block w).result = .error (Raised.ctor ⟨F⟩) ∧
    (ComRuntime.scope host a block w).events = (ComRuntime.ctor host a w).events ∧
    (ComRuntime.scope host a block w).events =
      w ++ [Event.comInit a.toDWORD] ++ assertLog host.debugBuild ∧
    (ComRuntime.scope host a block w).events.count Event.comTeardown =
      w.count Event.comTeardown := by
  subst hF
  rw [ComRuntime_scope_error host a block w hne, ComRuntime_ctor_error host a w hne]
  refine ⟨⟨⟨_⟩, rfl, rfl⟩, rfl, rfl, rfl, rfl, ?_⟩
  simp [List.count_append, count_assertLog]

/-- C5. For every apartment kind, when `CoInitializeEx` answers `S_OK`: the
`ComRuntime` constructor completes without throwing, it calls the initializer once,
with the native mode constant of that apartment, and the guarded scope makes the COM
teardown call once, after the body, whether the body returns or throws; the scope
is left the way the body is left. -/
theorem ComRuntime_ok_init_balanced {ε β : Type} (host : Host) (a : Apartment)
    (block : Block ε β) (w : List Event)
    (h : host.coInitResult a.toDWORD = S_OK) :
    (ComRuntime.ctor host a w).result = .ok ⟨S_OK⟩ ∧
    (ComRuntime.ctor host a w).events =
      w ++ [Event.comInit a.toDWORD, Event.trace "COM runtime initialized."] ∧
    (ComRuntime.scope host a block w).events =
      w ++ [Event.comInit a.toDWORD, Event.trace "COM runtime initialized."]
        ++ block.emits
        ++ [Event.comTeardown, Event.trace "COM runtime uninitialized."] ∧
    (ComRuntime.scope host a block w).result = block.exit.mapError Raised.body ∧
    (∀ m : Nat, (ComRuntime.scope host a block w).events.count (Event.comInit m) =
      w.count (Event.comInit m) + block.emits.count (Event.comInit m)
        + (if m = a.toDWORD then 1 else 0)) ∧
    (ComRuntime.scope host a block w).events.count Event.comTeardown =
      w.count Event.comTeardown + block.emits.count Event.comTeardown + 1 ∧
    (a.toDWORD = match a with
      | .MultiThreaded => COINIT_MULTITHREADED
      | .SingleThreaded => COINIT_APARTMENTTHREADED) := by
  rw [ComRuntime_scope_ok host a block w h, ComRuntime_ctor_ok host a w h]
  refine ⟨rfl, rfl, rfl, rfl, ?_, ?_, ?_⟩
  · intro m
    by_cases hm : m = a.toDWORD
    · subst hm
      simp [List.count_append, List.count_cons]
      omega
    · have hm' : ¬ a.toDWORD = m := fun e => hm e.symm
      simp [List.count_append, List.count_cons, hm, hm']
  · simp [List.count_append, List.count_cons]
    omega
  · cases a <;> rfl

/-- C6. Release policy of the two destructors as a function of the captured status
code `c`: `~ComRuntime` makes the COM teardown call (followed by its trace) exactly
when `c = S_OK`; `~OleRuntime` makes the OLE teardown call exactly when `c = S_OK`
or `c = S_FALSE`; the two policies agree exactly on the codes other than `S_FALSE`;
and neither tears down for the initial value `E_FAIL` of the field. -/
theorem release_policy (c : HRESULT) (w : List Event) :
    ComRuntime.dtor ⟨c⟩ w =
      w ++ (if c = S_OK then
              [Event.comTeardown, Event.trace "COM runtime uninitialized."]
            else []) ∧
    OleRuntime.dtor ⟨c⟩ w =
      w ++ (if c = S_OK ∨ c = S_FALSE then
              [Event.oleTeardown, Event.trace "OLE COM runtime uninitialized."]
            else []) ∧
    (Event.comTeardown ∈ ComRuntime.dtor ⟨c⟩ [] ↔ c = S_OK) ∧
    (Event.oleTeardown ∈ OleRuntime.dtor ⟨c⟩ [] ↔ (c = S_OK ∨ c = S_FALSE)) ∧
    ((Event.comTeardown ∈ ComRuntime.dtor ⟨c⟩ [] ↔
        Event.oleTeardown ∈ OleRuntime.dtor ⟨c⟩ []) ↔ c ≠ S_FALSE) ∧
    ({} : ComRuntime).initResult = E_FAIL ∧
    ({} : OleRuntime).initResult = E_FAIL ∧
    ComRuntime.dtor {} w = w ∧
    OleRuntime.dtor {} w = w := by
  have hc : (Event.comTeardown ∈ ComRuntime.dtor ⟨c⟩ [] ↔ c = S_OK) := by
    rw [ComRuntime_dtor_eq]
    by_cases h : c = S_OK <;> simp [h]
  have ho : (Event.oleTeardown ∈ OleRuntime.dtor ⟨c⟩ [] ↔ (c = S_OK ∨ c = S_FALSE)) := by
    rw [OleRuntime_dtor_eq]
    by_cases h : c = S_OK ∨ c = S_FALSE <;> simp [h]
  refine ⟨ComRuntime_dtor_eq c w, OleRuntime_dtor_eq c w, hc, ho, ?_, rfl, rfl, ?_, ?_⟩
  · rw [hc, ho]
    constructor
    · intro h hF
      have h1 : c = S_OK := h.mpr (Or.inr hF)
      rw [h1] at hF
      exact absurd hF (by decide)
    · intro h
      exact ⟨Or.inl, fun h2 => h2.resolve_right h⟩
  · rw [ComRuntime_dtor_eq]
    simp [E_FAIL, S_OK]
  · rw [OleRuntime_dtor_eq]
    simp [E_FAIL, S_OK, S_FALSE]

/-- C7. For every status code `c` other than `S_FALSE` answered by `OleInitialize`,
the `OleRuntime` guard behaves like the `ComRuntime` guard: if `c = S_OK` the
constructor completes and the scope makes the OLE teardown call once, after the
body; otherwise the constructor throws a `ComException` whose `hr()` is `c`, nothing
runs after the constructor and the OLE teardown call is never made. -/
theorem OleRuntime_shape_off_S_FALSE {ε β : Type} (host : Host) (c : HRESULT)
    (block : Block ε β) (w : List Event)
    (hc : host.oleInitResult = c) (_hne : c ≠ S_FALSE) :
    (c = S_OK →
      (OleRuntime.ctor host w).result = .ok ⟨S_OK⟩ ∧
      (OleRuntime.scope host block w).events =
        w ++ [Event.oleInit, Event.trace "OLE COM runtime initialized."]
          ++ block.emits
          ++ [Event.oleTeardown, Event.trace "OLE COM runtime uninitialized."] ∧
      (OleRuntime.scope host block w).result = block.exit.mapError Raised.body ∧
      (OleRuntime.scope host block w).events.count Event.oleTeardown =
        w.count Event.oleTeardown + block.emits.count Event.oleTeardown + 1) ∧
    (c ≠ S_OK →
      (∃ e : ComException, (OleRuntime.ctor host w).result = .error e ∧ e.hr = c) ∧
      (OleRuntime.scope host block w).result = .error (Raised.ctor ⟨c⟩) ∧
      (OleRuntime.scope host block w).events = (OleRuntime.ctor host w).events ∧
      (OleRuntime.scope host block w).events.count Event.oleTeardown =
        w.count Event.oleTeardown) := by
  subst hc
  refine ⟨?_, ?_⟩
  · intro h
    rw [OleRuntime_scope_ok host block w h, OleRuntime_ctor_ok host w h]
    refine ⟨rfl, rfl, rfl, ?_⟩
    simp [List.count_append, List.count_cons]
    omega
  · intro h
    rw [OleRuntime_scope_error host block w h, OleRuntime_ctor_error host w h]
    refine ⟨⟨⟨_⟩, rfl, rfl⟩, rfl, rfl, ?_⟩
    simp [List.count_append, count_assertLog]


/-! ## Traces -/

theorem ComRuntime_ctor_completed (host : Host) (a : Apartment) (w : List Event) :
    (ComRuntime.ctor host a w).completed = decide (host.coInitResult a.toDWORD = S_OK) := by
  by_cases h : host.coInitResult a.toDWORD = S_OK
  · simp [ComRuntime_ctor_ok host a w h, Run.completed, h]
  · simp [ComRuntime_ctor_error host a w h, Run.completed, h]

theorem OleRuntime_ctor_completed (host : Host) (w : List Event) :
    (OleRuntime.ctor host w).completed = decide (host.oleInitResult = S_OK) := by
  by_cases h : host.oleInitResult = S_OK
  · simp [OleRuntime_ctor_ok host w h, Run.completed, h]
  · simp [OleRuntime_ctor_error host w h, Run.completed, h]

theorem ComRuntime_scope_traces {ε β : Type} (host : Host) (a : Apartment)
    (block : Block ε β) (w : List Event) :
    traces (ComRuntime.scope host a block w).events =
      traces w ++ (if (ComRuntime.ctor host a w).completed then
        ["COM runtime initialized."] ++ traces block.emits ++ ["COM runtime uninitialized."]
      else []) ∧
    (ComRuntime.scope host a block w).events.count Event.comTeardown =
      w.count Event.comTeardown + (if (ComRuntime.ctor host a w).completed then
        block.emits.count Event.comTeardown + 1 else 0) := by
  rw [ComRuntime_ctor_completed]
  by_cases h : host.coInitResult a.toDWORD = S_OK
  · rw [ComRuntime_scope_ok host a block w h]
    refine ⟨?_, ?_⟩
    · simp [traces_append, h]
      simp [traces]
    · simp [List.count_append, List.count_cons, h]
  · rw [ComRuntime_scope_error host a block w h]
    refine ⟨?_, ?_⟩
    · rw [traces_append, traces_append, traces_assertLog]
      simp [traces, h]
    · simp [List.count_append, count_assertLog, h]

theorem OleRuntime_scope_traces {ε β : Type} (host : Host)
    (block : Block ε β) (w : List Event) :
    traces (OleRuntime.scope host block w).events =
      traces w ++ (if (OleRuntime.ctor host w).completed then
        ["OLE COM runtime initialized."] ++ traces block.emits
          ++ ["OLE COM runtime uninitialized."]
      else []) ∧
    (OleRuntime.scope host block w).events.count Event.oleTeardown =
      w.count Event.oleTeardown + (if (OleRuntime.ctor host w).completed then
        block.emits.count Event.oleTeardown + 1 else 0) := by
  rw [OleRuntime_ctor_completed]
  by_cases h : host.oleInitResult = S_OK
  · rw [OleRuntime_scope_ok host block w h]
    refine ⟨?_, ?_⟩
    · simp [traces_append, h]
      simp [traces]
    · simp [List.count_append, List.count_cons, h]
  · rw [OleRuntime_scope_error host block w h]
    refine ⟨?_, ?_⟩
    · rw [traces_append, traces_append, traces_assertLog]
      simp [traces, h]
    · simp [List.count_append, count_assertLog, h]

theorem ComRuntime_skip_events {ε : Type} (host : Host) (a : Apartment) :
    (ComRuntime.scope host a (Block.skip : Block ε Unit) []).events =
      if host.coInitResult a.toDWORD = S_OK then
        [Event.comInit a.toDWORD, Event.trace "COM runtime initialized.",
          Event.comTeardown, Event.trace "COM runtime uninitialized."]
      else Event.comInit a.toDWORD :: assertLog host.debugBuild := by
  by_cases h : host.coInitResult a.toDWORD = S_OK
  · simp [ComRuntime_scope_ok host a _ _ h, Block.skip, h]
  · simp [ComRuntime_scope_error host a _ _ h, h]

theorem OleRuntime_skip_events {ε : Type} (host : Host) :
    (OleRuntime.scope host (Block.skip : Block ε Unit) []).events =
      if host.oleInitResult = S_OK then
        [Event.oleInit, Event.trace "OLE COM runtime initialized.",
          Event.oleTeardown, Event.trace "OLE COM runtime uninitialized."]
      else Event.oleInit :: assertLog host.debugBuild := by
  by_cases h : host.oleInitResult = S_OK
  · simp [OleRuntime_scope_ok host _ _ h, Block.skip, h]
  · simp [OleRuntime_scope_error host _ _ h, h]

theorem ComRuntime_skip_counts {ε : Type} (host : Host) (a : Apartment) :
    (ComRuntime.scope host a (Block.skip : Block ε Unit) []).events.count
        (Event.trace "COM runtime initialized.") =
      (if (ComRuntime.ctor host a []).completed then 1 else 0) ∧
    (ComRuntime.scope host a (Block.skip : Block ε Unit) []).events.count
        (Event.trace "COM runtime uninitialized.") =
      (ComRuntime.scope host a (Block.skip : Block ε Unit) []).events.count
        Event.comTeardown := by
  rw [ComRuntime_skip_events, ComRuntime_ctor_completed]
  by_cases h : host.coInitResult a.toDWORD = S_OK
  · simp only [h, if_true, decide_True]
    simp [List.count_cons]
  · simp only [h, if_false, decide_False]
    simp [List.count_cons, count_assertLog]

theorem OleRuntime_skip_counts {ε : Type} (host : Host) :
    (OleRuntime.scope host (Block.skip : Block ε Unit) []).events.count
        (Event.trace "OLE COM runtime initialized.") =
      (if (OleRuntime.ctor host []).completed then 1 else 0) ∧
    (OleRuntime.scope host (Block.skip : Block ε Unit) []).events.count
        (Event.trace "OLE COM runtime uninitialized.") =
      (OleRuntime.scope host (Block.skip : Block ε Unit) []).events.count
        Event.oleTeardown := by
  rw [OleRuntime_skip_events, OleRuntime_ctor_completed]
  by_cases h : host.oleInitResult = S_OK
  · simp only [h, if_true, decide_True]
    exact ⟨by decide, by decide⟩
  · simp only [h, if_false, decide_False]
    simp [List.count_cons, count_assertLog]

/-- C8. The traces follow the runtime events, for either guard, every status code
the initializer answers, every body and every starting log: the constructor
completes exactly when the code is `S_OK`; the trace sink receives the guard's
"initialized" message, then the body's traces, then the guard's "uninitialized"
message when the constructor completes, and nothing when it throws; the teardown
call is made once in the first case and not at all in the second. For the guard
alone (empty body, empty log) the "initialized" message occurs once if the
constructor completes and never otherwise, and the "uninitialized" message occurs
as often as the teardown call. With `SingleThreaded` and `S_OK` the events are the
initializer call, "COM runtime initialized.", the teardown call and
"COM runtime uninitialized.", with one teardown call. -/
theorem traces_track_runtime_events {ε β : Type} (host : Host) (a : Apartment)
    (block : Block ε β) (w : List Event) :
    (ComRuntime.ctor host a w).completed = decide (host.coInitResult a.toDWORD = S_OK) ∧
    (OleRuntime.ctor host w).completed = decide (host.oleInitResult = S_OK) ∧
    (traces (ComRuntime.scope host a block w).events =
      traces w ++ (if (ComRuntime.ctor host a w).completed then
        ["COM runtime initialized."] ++ traces block.emits ++ ["COM runtime uninitialized."]
      else []) ∧
     (ComRuntime.scope host a block w).events.count Event.comTeardown =
      w.count Event.comTeardown + (if (ComRuntime.ctor host a w).completed then
        block.emits.count Event.comTeardown + 1 else 0)) ∧
    (traces (OleRuntime.scope host block w).events =
      traces w ++ (if (OleRuntime.ctor host w).completed then
        ["OLE COM runtime initialized."] ++ traces block.emits
          ++ ["OLE COM runtime uninitialized."]
      else []) ∧
     (OleRuntime.scope host block w).events.count Event.oleTeardown =
      w.count Event.oleTeardown + (if (OleRuntime.ctor host w).completed then
        block.emits.count Event.oleTeardown + 1 else 0)) ∧
    ((ComRuntime.scope host a (Block.skip : Block ε Unit) []).events.count
        (Event.trace "COM runtime initialized.") =
      (if (ComRuntime.ctor host a []).completed then 1 else 0) ∧
     (ComRuntime.scope host a (Block.skip : Block ε Unit) []).events.count
        (Event.trace "COM runtime uninitialized.") =
      (ComRuntime.scope host a (Block.skip : Block ε Unit) []).events.count
        Event.comTeardown) ∧
    ((OleRuntime.scope host (Block.skip : Block ε Unit) []).events.count
        (Event.trace "OLE COM runtime initialized.") =
      (if (OleRuntime.ctor host []).completed then 1 else 0) ∧
     (OleRuntime.scope host (Block.skip : Block ε Unit) []).events.count
        (Event.trace "OLE COM runtime uninitialized.") =
      (OleRuntime.scope host (Block.skip : Block ε Unit) []).events.count
        Event.oleTeardown) ∧
    (host.coInitResult COINIT_APARTMENTTHREADED = S_OK →
      (ComRuntime.scope host Apartment.SingleThreaded
          (Block.skip : Block ε Unit) []).events =
        [Event.comInit COINIT_APARTMENTTHREADED, Event.trace "COM runtime initialized.",
          Event.comTeardown, Event.trace "COM runtime uninitialized."] ∧
      traces (ComRuntime.scope host Apartment.SingleThreaded
          (Block.skip : Block ε Unit) []).events =
        ["COM runtime initialized.", "COM runtime uninitialized."] ∧
      (ComRuntime.scope host Apartment.SingleThreaded
          (Block.skip : Block ε Unit) []).events.count Event.comTeardown = 1) := by
  refine ⟨ComRuntime_ctor_completed host a w, OleRuntime_ctor_completed host w,
    ComRuntime_scope_traces host a block w, OleRuntime_scope_traces host block w,
    ComRuntime_skip_counts host a, OleRuntime_skip_counts host, ?_⟩
  intro h
  have h' : host.coInitResult Apartment.SingleThreaded.toDWORD = S_OK := h
  rw [ComRuntime_skip_events, if_pos h']
  refine ⟨rfl, ?_, ?_⟩
  · simp [traces]
  · simp [List.count_cons]

/-- The trace log of scenario A on a host whose initializers answer `S_OK`. -/
theorem traces_track_runtime_events_witness :
    traces (ComRuntime.scope (Host.answering S_OK false) Apartment.SingleThreaded
        (Block.skip : Block Empty Unit) []).events =
      ["COM runtime initialized.", "COM runtime uninitialized."] ∧
    (ComRuntime.scope (Host.answering S_OK false) Apartment.SingleThreaded
        (Block.skip : Block Empty Unit) []).events.count Event.comTeardown = 1 :=
  ((traces_track_runtime_events (Host.answering S_OK false) Apartment.SingleThreaded
      (Block.skip : Block Empty Unit) []).2.2.2.2.2.2 rfl).2

/-! ## The OLE guard on the alternate success code -/

/-- C3, on the code. When `OleInitialize` answers `S_FALSE`, the `OleRuntime`
constructor throws a `ComException` carrying `S_FALSE` (it checks with `CheckHR`),
nothing runs after it and the OLE teardown call is never made, although the
destructor would tear down for a captured `S_FALSE` and `CheckHR_OKorFALSE`
accepts `S_FALSE`. -/
theorem OleRuntime_S_FALSE_raises {ε β : Type} (host : Host)
    (block : Block ε β) (w : List Event) (h : host.oleInitResult = S_FALSE) :
    (OleRuntime.ctor host w).result = .error ⟨S_FALSE⟩ ∧
    (OleRuntime.ctor host w).completed = false ∧
    (OleRuntime.scope host block w).result = .error (Raised.ctor ⟨S_FALSE⟩) ∧
    (OleRuntime.scope host block w).events =
      w ++ [Event.oleInit] ++ assertLog host.debugBuild ∧
    (OleRuntime.scope host block w).events.count Event.oleTeardown =
      w.count Event.oleTeardown ∧
    OleRuntime.dtor ⟨S_FALSE⟩ w =
      w ++ [Event.oleTeardown, Event.trace "OLE COM runtime uninitialized."] ∧
    (CheckHR_OKorFALSE host.debugBuild S_FALSE w).result = .ok true := by
  have hne : host.oleInitResult ≠ S_OK := by
    rw [h]
    decide
  rw [OleRuntime_scope_error host block w hne, OleRuntime_ctor_error host w hne, h]
  refine ⟨rfl, rfl, rfl, rfl, ?_, ?_, ?_⟩
  · simp [List.count_append, count_assertLog]
  · rw [OleRuntime_dtor_eq]
    simp
  · rw [CheckHR_OKorFALSE_ok _ _ _ (Or.inr rfl)]

/-- The OLE guard on a release host whose `OleInitialize` answers `S_FALSE`: the
only event is the initializer call and the scope is left by the constructor's
exception. -/
theorem OleRuntime_S_FALSE_raises_witness :
    (Host.answering S_FALSE false).oleInitResult = S_FALSE ∧
    (OleRuntime.scope (Host.answering S_FALSE false)
        (Block.skip : Block Empty Unit) []).result = .error (Raised.ctor ⟨1⟩) ∧
    (OleRuntime.scope (Host.answering S_FALSE false)
        (Block.skip : Block Empty Unit) []).events = [Event.oleInit] :=
  ⟨rfl,
    (OleRuntime_S_FALSE_raises (Host.answering S_FALSE false)
      (Block.skip : Block Empty Unit) [] rfl).2.2.1,
    (OleRuntime_S_FALSE_raises (Host.answering S_FALSE false)
      (Block.skip : Block Empty Unit) [] rfl).2.2.2.1⟩

/-! ## The debug assertion and the raise -/

/-- C10. In both checkers the asserted condition is false exactly when the checker
throws, for every status code, in a debug and in a release build; the outcome
(returned value or thrown exception) is the same with the assertion compiled in
and compiled out; with the assertion compiled out every code that fails the
asserted condition is still thrown, leaving the log untouched; and a debug build
reports a failed assertion exactly when the checker throws. -/
theorem assertion_flags_raise_condition (debugBuild : Bool) (c : HRESULT)
    (w : List Event) :
    (CheckHR.asserted c = false ↔
      ∃ e : ComException, (CheckHR debugBuild c w).result = .error e) ∧
    (CheckHR_OKorFALSE.asserted c = false ↔
      ∃ e : ComException, (CheckHR_OKorFALSE debugBuild c w).result = .error e) ∧
    (CheckHR true c w).result = (CheckHR false c w).result ∧
    (CheckHR_OKorFALSE true c w).result = (CheckHR_OKorFALSE false c w).result ∧
    (CheckHR.asserted c = false → CheckHR false c w = ⟨w, .error ⟨c⟩⟩) ∧
    (CheckHR_OKorFALSE.asserted c = false →
      CheckHR_OKorFALSE false c w = ⟨w, .error ⟨c⟩⟩) ∧
    (Event.assertReport ∈ (CheckHR true c []).events ↔
      ∃ e : ComException, (CheckHR true c []).result = .error e) ∧
    (Event.assertReport ∈ (CheckHR_OKorFALSE true c []).events ↔
      ∃ e : ComException, (CheckHR_OKorFALSE true c []).result = .error e) := by
  have hA : CheckHR.asserted c = false ↔ c ≠ S_OK := by
    unfold CheckHR.asserted
    rw [decide_eq_false_iff_not]
    exact ⟨fun h e => h e.symm, fun h e => h e.symm⟩
  have hB : CheckHR_OKorFALSE.asserted c = false ↔ (c ≠ S_OK ∧ c ≠ S_FALSE) := by
    unfold CheckHR_OKorFALSE.asserted
    rw [Bool.or_eq_false_iff, decide_eq_false_iff_not, decide_eq_false_iff_not]
    exact ⟨fun h => ⟨fun e => h.1 e.symm, fun e => h.2 e.symm⟩,
      fun h => ⟨fun e => h.1 e.symm, fun e => h.2 e.symm⟩⟩
  have hd : ¬ S_FALSE = S_OK := by decide
  rw [hA, hB]
  by_cases h1 : c = S_OK
  · have k1 := fun d v => CheckHR_ok d v
    have k2 := fun d v => CheckHR_OKorFALSE_ok d c v (Or.inl h1)
    rw [h1] at k2 ⊢
    simp only [k1, k2]
    simp
  · have e1 := fun d v => CheckHR_error d c v h1
    by_cases h2 : c = S_FALSE
    · have k2 := fun d v => CheckHR_OKorFALSE_ok d c v (Or.inr h2)
      simp only [e1, k2]
      simp [assertLog, h1, h2, hd]
    · have e2 := fun d v => CheckHR_OKorFALSE_error d c v h1 h2
      simp only [e1, e2]
      simp [assertLog, h1, h2]

/-! ## Concrete runs -/

/-- The COM guard on a release host whose initializer answers `E_FAIL`. -/
theorem ComRuntime_failed_init_raises_witness :
    (Host.answering E_FAIL false).coInitResult Apartment.SingleThreaded.toDWORD = E_FAIL ∧
    E_FAIL ≠ S_OK ∧
    (ComRuntime.scope (Host.answering E_FAIL false) Apartment.SingleThreaded
        (Block.skip : Block Empty Unit) []).result
      = .error (Raised.ctor ⟨-2147467259⟩) ∧
    (ComRuntime.scope (Host.answering E_FAIL false) Apartment.SingleThreaded
        (Block.skip : Block Empty Unit) []).events = [Event.comInit 2] :=
  ⟨rfl, by decide,
    (ComRuntime_failed_init_raises (Host.answering E_FAIL false) Apartment.SingleThreaded
      E_FAIL (Block.skip : Block Empty Unit) [] rfl (by decide)).2.2.1,
    (ComRuntime_failed_init_raises (Host.answering E_FAIL false) Apartment.SingleThreaded
      E_FAIL (Block.skip : Block Empty Unit) [] rfl (by decide)).2.2.2.2.1⟩

/-- The COM guard on a release host whose initializer answers `S_OK`, around a body
that throws. -/
theorem ComRuntime_ok_init_balanced_witness :
    (Host.answering S_OK false).coInitResult Apartment.MultiThreaded.toDWORD = S_OK ∧
    (ComRuntime.scope (Host.answering S_OK false) Apartment.MultiThreaded
        (⟨[], .error "boom"⟩ : Block String Unit) []).events =
      [Event.comInit 0, Event.trace "COM runtime initialized.",
        Event.comTeardown, Event.trace "COM runtime uninitialized."] ∧
    (ComRuntime.scope (Host.answering S_OK false) Apartment.MultiThreaded
        (⟨[], .error "boom"⟩ : Block String Unit) []).result =
      .error (Raised.body "boom") :=
  ⟨rfl,
    (ComRuntime_ok_init_balanced (Host.answering S_OK false) Apartment.MultiThreaded
      (⟨[], .error "boom"⟩ : Block String Unit) [] rfl).2.2.1,
    (ComRuntime_ok_init_balanced (Host.answering S_OK false) Apartment.MultiThreaded
      (⟨[], .error "boom"⟩ : Block String Unit) [] rfl).2.2.2.1⟩

/-- The OLE guard on a release host whose initializer answers `S_OK`. -/
theorem OleRuntime_shape_off_S_FALSE_witness :
    (Host.answering S_OK false).oleInitResult = S_OK ∧
    S_OK ≠ S_FALSE ∧
    (OleRuntime.scope (Host.answering S_OK false)
        (Block.skip : Block Empty Unit) []).events =
      [Event.oleInit, Event.trace "OLE COM runtime initialized.",
        Event.oleTeardown, Event.trace "OLE COM runtime uninitialized."] :=
  ⟨rfl, by decide,
    ((OleRuntime_shape_off_S_FALSE (Host.answering S_OK false) S_OK
      (Block.skip : Block Empty Unit) [] rfl (by decide)).1 rfl).2.1⟩

end ComUtils
end Markus_M_Egger
